import Mathlib

/-!
Verification of the data-layer synchronization and validation subsystem
(chia/data_layer/data_layer.py), shallowly embedded in Lean.

Hashes (bytes32 values) are modelled as natural numbers; generations
(uint32 counters) as natural numbers.  External collaborators
(wallet RPC, data store, downloader) are modelled as an explicit
environment of responses, and the observable effects of one invocation
(writes of the validated generation, downloader invocation, validation
calls, raised exceptions) are recorded in an outcome structure.
-/

/-- A ledger-side commitment: root hash and wallet generation
(SingletonRecord in data_layer_wallet). -/
structure SingletonRecord where
  root : Nat
  generation : Nat
deriving DecidableEq, Repr

/-- A local tree root snapshot (Root in data_layer_types):
node_hash is None for an empty tree. -/
structure Root where
  node_hash : Option Nat
  generation : Nat
deriving DecidableEq, Repr

/-- DownloadMode from data_layer_types: LATEST checks only the most
recent commitment, HISTORY every commitment since the checkpoint. -/
inductive DownloadMode where
  | LATEST
  | HISTORY
deriving DecidableEq, Repr

/-- The exceptions an invocation of fetch_and_validate can raise. -/
inductive FetchError where
  | assertionError
  | indexError
  | downloadFailure
  | chainMismatch
  | validationFailure
deriving DecidableEq, Repr

/-- Observable effects of one fetch_and_validate invocation:
the exception raised (if any), the value written by
set_validated_wallet_generation (if any write happened), whether
download_data was invoked, and whether _validate_batch was called. -/
structure FetchOutcome where
  error : Option FetchError
  validatedGenSet : Option Nat
  downloaderInvoked : Bool
  validateBatchCalled : Bool
deriving DecidableEq, Repr

/-- Responses of the external collaborators during one invocation:
latestSingleton is wallet_rpc.dl_latest_singleton, oldRoot the result of
data_store.get_tree_root before download (none when it raises),
validatedGeneration is data_store.get_validated_wallet_generation,
historyFrom is wallet_rpc.dl_history by minimum generation, downloadOk
the download_data result, postRoot the tree root after download, and
lookup is data_store.get_last_tree_root_by_hash (hash, max generation). -/
structure Env where
  latestSingleton : Option SingletonRecord
  oldRoot : Option Root
  validatedGeneration : Nat
  historyFrom : Nat → List SingletonRecord
  downloadOk : Bool
  postRoot : Root
  lookup : Nat → Nat → Option Root

/-- The loop body of _validate_batch (data_layer.py lines 154-173):
walks the candidate records, skipping a record equal to the previously
checked hash, requiring each remaining record to resolve to a local root
at or before max_generation with generation at least min_generation, and
narrowing max_generation to the resolved generation. -/
def validateBatchLoop (lookup : Nat → Nat → Option Root) :
    List SingletonRecord → Option Nat → Nat → Nat → Bool
  | [], _, _, _ => true
  | record :: rest, last_checked_hash, min_generation, max_generation =>
    if last_checked_hash = some record.root then
      validateBatchLoop lookup rest last_checked_hash min_generation max_generation
    else
      match lookup record.root max_generation with
      | none => false
      | some root =>
        if root.generation < min_generation then false
        else validateBatchLoop lookup rest (some record.root) min_generation root.generation

/-- _validate_batch (data_layer.py lines 147-173), starting with no
previously checked hash. -/
def validate_batch (lookup : Nat → Nat → Option Root)
    (to_check : List SingletonRecord) (min_generation max_generation : Nat) : Bool :=
  validateBatchLoop lookup to_check none min_generation max_generation

/-- The fast-forward set test (line 208): len(set of roots) == 1,
false on an empty list. -/
def allSameRoot : List SingletonRecord → Bool
  | [] => false
  | r :: rest => rest.all (fun x => x.root == r.root)

/-- The while loop of lines 218-219 read on the reversed list: drop
elements whose root equals the old hash; none models the IndexError that
a negative index raises once the list is empty. -/
def trimLoop (oldHash : Nat) : List SingletonRecord → Option (List SingletonRecord)
  | [] => none
  | r :: rest => if r.root = oldHash then trimLoop oldHash rest else some (r :: rest)

/-- Trimming of trailing candidates equal to the old root hash
(data_layer.py lines 217-219). -/
def trimTrailing (oldHash : Nat) (l : List SingletonRecord) : Option (List SingletonRecord) :=
  (trimLoop oldHash l.reverse).map List.reverse

/-- Candidate list construction (data_layer.py lines 195-201): the
latest record in LATEST mode, the history from the validated generation
plus one in HISTORY mode. -/
def candidates (mode : DownloadMode) (env : Env) (singleton_record : SingletonRecord) :
    List SingletonRecord :=
  match mode with
  | DownloadMode.LATEST => [singleton_record]
  | DownloadMode.HISTORY => env.historyFrom (env.validatedGeneration + 1)

/-- The download and validation phase of fetch_and_validate
(data_layer.py lines 227-269): download, post-download root comparison
against the first remaining candidate, light validation over the rest,
full-history fallback, and the final write of the validated generation. -/
def downloadPhase (env : Env) (singleton_record : SingletonRecord)
    (old_root : Option Root) (to_check : List SingletonRecord) : FetchOutcome :=
  if env.downloadOk = false then
    { error := some FetchError.downloadFailure, validatedGenSet := none,
      downloaderInvoked := true, validateBatchCalled := false }
  else
    match env.postRoot.node_hash with
    | none =>
      { error := some FetchError.chainMismatch, validatedGenSet := none,
        downloaderInvoked := true, validateBatchCalled := false }
    | some root_hash =>
      match to_check with
      | [] =>
        { error := some FetchError.indexError, validatedGenSet := none,
          downloaderInvoked := true, validateBatchCalled := false }
      | first :: rest =>
        if root_hash = first.root then
          let min_generation := (match old_root with
            | none => 0
            | some r => r.generation) + 1
          let max_generation := env.postRoot.generation
          if validate_batch env.lookup rest min_generation max_generation then
            { error := none, validatedGenSet := some singleton_record.generation,
              downloaderInvoked := true, validateBatchCalled := true }
          else
            match env.historyFrom 1 with
            | [] =>
              { error := some FetchError.indexError, validatedGenSet := none,
                downloaderInvoked := true, validateBatchCalled := true }
            | _ :: frest =>
              if validate_batch env.lookup frest 0 max_generation then
                { error := none, validatedGenSet := some singleton_record.generation,
                  downloaderInvoked := true, validateBatchCalled := true }
              else
                { error := some FetchError.validationFailure, validatedGenSet := none,
                  downloaderInvoked := true, validateBatchCalled := true }
        else
          { error := some FetchError.chainMismatch, validatedGenSet := none,
            downloaderInvoked := true, validateBatchCalled := false }

/-- The no-effect outcome: normal return with no write, no download and
no validation call. -/
def noopOutcome : FetchOutcome :=
  { error := none, validatedGenSet := none, downloaderInvoked := false,
    validateBatchCalled := false }

/-- fetch_and_validate (data_layer.py lines 175-269) over the modelled
environment: early returns on a missing record, generation zero, or a
generation equal to the checkpoint; the assert that the checkpoint does
not exceed the latest generation; fast-forward when every candidate
repeats the local root hash; trimming; then the download phase. -/
def fetch_and_validate (mode : DownloadMode) (env : Env) : FetchOutcome :=
  match env.latestSingleton with
  | none => noopOutcome
  | some singleton_record =>
    if singleton_record.generation = 0 then noopOutcome
    else if singleton_record.generation < env.validatedGeneration then
      { error := some FetchError.assertionError, validatedGenSet := none,
        downloaderInvoked := false, validateBatchCalled := false }
    else if env.validatedGeneration = singleton_record.generation then noopOutcome
    else
      let to_check := candidates mode env singleton_record
      match env.oldRoot with
      | some old_root =>
        match old_root.node_hash with
        | some old_hash =>
          match to_check with
          | [] =>
            { error := some FetchError.indexError, validatedGenSet := none,
              downloaderInvoked := false, validateBatchCalled := false }
          | first :: rest =>
            if first.root = old_hash ∧ allSameRoot (first :: rest) = true then
              { error := none, validatedGenSet := some singleton_record.generation,
                downloaderInvoked := false, validateBatchCalled := false }
            else
              match trimTrailing old_hash (first :: rest) with
              | none =>
                { error := some FetchError.indexError, validatedGenSet := none,
                  downloaderInvoked := false, validateBatchCalled := false }
              | some trimmed => downloadPhase env singleton_record (some old_root) trimmed
        | none => downloadPhase env singleton_record (some old_root) to_check
      | none => downloadPhase env singleton_record none to_check

/-- Outcome of create_store: whether the fatal failure was logged and
the final value of the initialized flag.  No exception is raised on a
local creation failure. -/
structure CreateStoreOutcome where
  loggedFatal : Bool
  initialized : Bool
deriving DecidableEq, Repr

/-- create_store (data_layer.py lines 78-86) after the ledger has
minted the identity: create_tree_res is the result of
data_store.create_tree; a missing result is logged as fatal, and the
initialized flag is assigned True afterwards in either case. -/
def create_store (create_tree_res : Option Unit) : CreateStoreOutcome :=
  match create_tree_res with
  | none => { loggedFatal := true, initialized := true }
  | some _ => { loggedFatal := false, initialized := true }

/-- The side of a reference-relative insertion (Side in
data_layer_types). -/
inductive Side where
  | left
  | right
deriving DecidableEq, Repr

/-- One entry of a batch_update changelist. -/
inductive Change where
  | insert (key value : Nat) (reference_node_hash : Option Nat) (side : Option Side)
  | delete (key : Nat)
deriving DecidableEq, Repr

/-- Operations batch_update issues against the data store and the
wallet RPC, in order. -/
inductive StoreOp where
  | insert (key value : Nat) (reference_node_hash : Option Nat) (side : Option Side)
  | autoinsert (key value : Nat)
  | delete (key : Nat)
  | get_tree_root
  | dl_update_root (node_hash : Nat)
deriving DecidableEq, Repr

/-- Modelled from the spec: the truthiness test of line 100,
"if reference_node_hash or side".  The Side type lives in
data_layer_types, outside the sources; per the spec an insert hint
counts as supplied exactly when a reference hash or a side is present. -/
def hintSupplied (reference_node_hash : Option Nat) (side : Option Side) : Bool :=
  reference_node_hash.isSome || side.isSome

/-- The changelist loop of batch_update (data_layer.py lines 94-106) as
the ordered trace of store operations: an insert with a supplied hint
performs the explicit insert and then the autoinsert, an insert without
a hint only the autoinsert, a delete the delete. -/
def batchLoop : List Change → List StoreOp
  | [] => []
  | change :: rest =>
    match change with
    | Change.insert key value reference_node_hash side =>
      if hintSupplied reference_node_hash side then
        StoreOp.insert key value reference_node_hash side ::
          StoreOp.autoinsert key value :: batchLoop rest
      else
        StoreOp.autoinsert key value :: batchLoop rest
    | Change.delete key => StoreOp.delete key :: batchLoop rest

/-- batch_update (data_layer.py lines 88-119): apply the changelist,
read the tree root twice (lines 108-109), substitute the zero hash for
an empty root, submit the root to the wallet, and return the submitted
transaction record. -/
def batch_update (changelist : List Change) (root : Root) (transaction_record : Nat) :
    List StoreOp × Nat :=
  (batchLoop changelist ++
      [StoreOp.get_tree_root, StoreOp.get_tree_root,
        StoreOp.dl_update_root (root.node_hash.getD 0)],
    transaction_record)

/-- A subscription (Subscription in data_layer_types). -/
structure Subscription where
  tree_id : Nat
  mode : DownloadMode
  ip : String
  port : Nat
deriving DecidableEq, Repr

/-- Result of subscribe: the registry afterwards and whether
wallet_rpc.dl_track_new was called. -/
structure SubscribeOutcome where
  subscriptions : List Subscription
  trackCalled : Bool
deriving DecidableEq, Repr

/-- Result of unsubscribe: the registry afterwards and whether
wallet_rpc.dl_stop_tracking was called. -/
structure UnsubscribeOutcome where
  subscriptions : List Subscription
  stopTrackingCalled : Bool
deriving DecidableEq, Repr

/-- Modelled from the spec: DataStore.subscribe is outside the sources;
per the spec it durably records the Subscription in the registry. -/
def storeSubscribe (subs : List Subscription) (s : Subscription) : List Subscription :=
  subs ++ [s]

/-- Modelled from the spec: DataStore.unsubscribe is outside the
sources; per the spec it removes the durable record for the tree id. -/
def storeUnsubscribe (subs : List Subscription) (tree_id : Nat) : List Subscription :=
  subs.filter (fun s => !(s.tree_id == tree_id))

/-- subscribe (data_layer.py lines 271-279): a no-op when the tree id
is already present, otherwise track with the wallet and record the
subscription. -/
def subscribe (subs : List Subscription) (store_id : Nat) (mode : DownloadMode)
    (ip : String) (port : Nat) : SubscribeOutcome :=
  let subscription : Subscription := { tree_id := store_id, mode := mode, ip := ip, port := port }
  if subscription.tree_id ∈ subs.map Subscription.tree_id then
    { subscriptions := subs, trackCalled := false }
  else
    { subscriptions := storeSubscribe subs subscription, trackCalled := true }

/-- unsubscribe (data_layer.py lines 281-288): a no-op when the tree id
is absent, otherwise remove the record and stop tracking. -/
def unsubscribe (subs : List Subscription) (tree_id : Nat) : UnsubscribeOutcome :=
  if tree_id ∈ subs.map Subscription.tree_id then
    { subscriptions := storeUnsubscribe subs tree_id, stopTrackingCalled := true }
  else
    { subscriptions := subs, stopTrackingCalled := false }

/-- Modelled from the spec: DataStore.get_last_tree_root_by_hash is
outside the sources; per the spec it looks up the most recent local
Root with that exact hash at or before max_generation. -/
def get_last_tree_root_by_hash (roots : List Root) (hash : Nat) (max_generation : Nat) :
    Option Root :=
  roots.foldl
    (fun acc r =>
      if r.node_hash = some hash ∧ r.generation ≤ max_generation then
        match acc with
        | none => some r
        | some a => if a.generation < r.generation then some r else acc
      else acc)
    none

/-- Local root history of scenario C in the spec: generations 1, 2, 3
carrying hashes A = 10, B = 20, C = 30. -/
def scenarioRoots : List Root :=
  [{ node_hash := some 10, generation := 1 },
   { node_hash := some 20, generation := 2 },
   { node_hash := some 30, generation := 3 }]

/-- The scenario C store lookup over that history. -/
def scLookup : Nat → Nat → Option Root :=
  get_last_tree_root_by_hash scenarioRoots

/-- Ledger record with hash B at generation 2. -/
def recB : SingletonRecord := { root := 20, generation := 2 }

/-- Ledger record with hash C at generation 3. -/
def recC : SingletonRecord := { root := 30, generation := 3 }

/-- Latest ledger record for the fast-forward scenario: hash 5 at
generation 3, repeating the local root hash. -/
def sFF : SingletonRecord := { root := 5, generation := 3 }

/-- Environment for the fast-forward scenario: local root hash 5 at
generation 1, checkpoint 1, latest record sFF. -/
def envFF : Env :=
  { latestSingleton := some sFF,
    oldRoot := some { node_hash := some 5, generation := 1 },
    validatedGeneration := 1,
    historyFrom := fun _ => [],
    downloadOk := true,
    postRoot := { node_hash := some 5, generation := 1 },
    lookup := fun _ _ => none }

/-- Environment where the ledger reports generation 0 while the local
checkpoint is 5: the ledger appears behind the checkpoint. -/
def envC10 : Env :=
  { latestSingleton := some { root := 7, generation := 0 },
    oldRoot := none,
    validatedGeneration := 5,
    historyFrom := fun _ => [],
    downloadOk := true,
    postRoot := { node_hash := none, generation := 0 },
    lookup := fun _ _ => none }

/-- Latest ledger record at nonzero generation 3, still behind the
checkpoint 5 of envA10. -/
def sA10 : SingletonRecord := { root := 7, generation := 3 }

/-- Environment where the ledger reports nonzero generation 3 while the
local checkpoint is 5. -/
def envA10 : Env :=
  { envC10 with latestSingleton := some sA10 }

/-- Latest ledger record for the download scenarios: hash 9 at
generation 2. -/
def sDL : SingletonRecord := { root := 9, generation := 2 }

/-- Environment whose downloader fails. -/
def envDLF : Env :=
  { latestSingleton := some sDL,
    oldRoot := none,
    validatedGeneration := 0,
    historyFrom := fun _ => [],
    downloadOk := false,
    postRoot := { node_hash := none, generation := 0 },
    lookup := fun _ _ => none }

/-- Environment whose download succeeds but whose resulting local root
hash 8 differs from the ledger-claimed hash 9. -/
def envCM : Env :=
  { envDLF with
    downloadOk := true,
    postRoot := { node_hash := some 8, generation := 1 } }

/-- Environment with no singleton record on the ledger at all. -/
def envNoRec : Env :=
  { latestSingleton := none,
    oldRoot := none,
    validatedGeneration := 0,
    historyFrom := fun _ => [],
    downloadOk := true,
    postRoot := { node_hash := none, generation := 0 },
    lookup := fun _ _ => none }

/-- A registry holding exactly one subscription for tree 1. -/
def subs1 : List Subscription :=
  [{ tree_id := 1, mode := DownloadMode.LATEST, ip := "ip", port := 1234 }]

/-- Each of the three early-return conditions (no record, generation
zero, generation equal to the checkpoint) makes fetch_and_validate a
pure no-op. -/
theorem fetch_noop_of_conditions (mode : DownloadMode) (env : Env)
    (h : env.latestSingleton = none ∨
      ∃ s, env.latestSingleton = some s ∧
        (s.generation = 0 ∨ s.generation = env.validatedGeneration)) :
    fetch_and_validate mode env = noopOutcome := by
  rcases h with hn | ⟨s, hs, h0 | heq⟩
  · simp [fetch_and_validate, hn]
  · simp [fetch_and_validate, hs, h0]
  · by_cases h0 : s.generation = 0
    · simp [fetch_and_validate, hs, h0]
    · have h1 : ¬ s.generation < env.validatedGeneration := by omega
      simp [fetch_and_validate, hs, h0, h1, heq.symm]

/-- The download phase either succeeds, writing the latest generation
after a validation call, or raises with no write. -/
theorem downloadPhase_shape (env : Env) (s : SingletonRecord) (old : Option Root)
    (tc : List SingletonRecord) :
    downloadPhase env s old tc =
        { error := none, validatedGenSet := some s.generation,
          downloaderInvoked := true, validateBatchCalled := true } ∨
      ∃ e d v, downloadPhase env s old tc =
        { error := some e, validatedGenSet := none, downloaderInvoked := d,
          validateBatchCalled := v } := by
  by_cases hd : env.downloadOk = false
  · exact Or.inr ⟨FetchError.downloadFailure, true, false, by simp [downloadPhase, hd]⟩
  · cases hph : env.postRoot.node_hash with
    | none => exact Or.inr ⟨FetchError.chainMismatch, true, false, by simp [downloadPhase, hd, hph]⟩
    | some rh =>
      cases tc with
      | nil => exact Or.inr ⟨FetchError.indexError, true, false, by simp [downloadPhase, hd, hph]⟩
      | cons first rest =>
        by_cases hr : rh = first.root
        · by_cases hv : validate_batch env.lookup rest
              ((match old with | none => 0 | some r => r.generation) + 1)
              env.postRoot.generation = true
          · exact Or.inl (by simp [downloadPhase, hd, hph, hr, hv])
          · cases hh : env.historyFrom 1 with
            | nil =>
              exact Or.inr ⟨FetchError.indexError, true, true,
                by simp [downloadPhase, hd, hph, hr, hv, hh]⟩
            | cons f frest =>
              by_cases hv2 : validate_batch env.lookup frest 0 env.postRoot.generation = true
              · exact Or.inl (by simp [downloadPhase, hd, hph, hr, hv, hh, hv2])
              · exact Or.inr ⟨FetchError.validationFailure, true, true,
                  by simp [downloadPhase, hd, hph, hr, hv, hh, hv2]⟩
        · exact Or.inr ⟨FetchError.chainMismatch, true, false, by simp [downloadPhase, hd, hph, hr]⟩

/-- Case analysis of one fetch_and_validate invocation: a no-op under
one of the early-return conditions, a successful write of the latest
generation (fast-forward, or after download and validation), or an
exception with no write. -/
theorem fetch_shape (mode : DownloadMode) (env : Env) :
    (fetch_and_validate mode env = noopOutcome ∧
      (env.latestSingleton = none ∨
        ∃ s, env.latestSingleton = some s ∧
          (s.generation = 0 ∨ s.generation = env.validatedGeneration))) ∨
    (∃ s, env.latestSingleton = some s ∧ s.generation ≠ 0 ∧
      env.validatedGeneration < s.generation ∧
      (fetch_and_validate mode env =
          { error := none, validatedGenSet := some s.generation,
            downloaderInvoked := false, validateBatchCalled := false } ∨
        fetch_and_validate mode env =
          { error := none, validatedGenSet := some s.generation,
            downloaderInvoked := true, validateBatchCalled := true })) ∨
    (∃ e d v, fetch_and_validate mode env =
      { error := some e, validatedGenSet := none, downloaderInvoked := d,
        validateBatchCalled := v }) := by
  cases hls : env.latestSingleton with
  | none => exact Or.inl ⟨fetch_noop_of_conditions mode env (Or.inl hls), Or.inl rfl⟩
  | some s =>
    by_cases h0 : s.generation = 0
    · exact Or.inl ⟨fetch_noop_of_conditions mode env (Or.inr ⟨s, hls, Or.inl h0⟩),
        Or.inr ⟨s, rfl, Or.inl h0⟩⟩
    · by_cases hlt : s.generation < env.validatedGeneration
      · exact Or.inr (Or.inr ⟨FetchError.assertionError, false, false,
          by simp [fetch_and_validate, hls, h0, hlt]⟩)
      · by_cases heq : env.validatedGeneration = s.generation
        · exact Or.inl ⟨fetch_noop_of_conditions mode env (Or.inr ⟨s, hls, Or.inr heq.symm⟩),
            Or.inr ⟨s, rfl, Or.inr heq.symm⟩⟩
        · have hvlt : env.validatedGeneration < s.generation := by omega
          cases hor : env.oldRoot with
          | none =>
            rcases downloadPhase_shape env s none (candidates mode env s) with hdl | ⟨e, d, v, hdl⟩
            · exact Or.inr (Or.inl ⟨s, rfl, h0, hvlt,
                Or.inr (by simp [fetch_and_validate, hls, h0, hlt, heq, hor, hdl])⟩)
            · exact Or.inr (Or.inr ⟨e, d, v,
                by simp [fetch_and_validate, hls, h0, hlt, heq, hor, hdl]⟩)
          | some o =>
            cases hoh : o.node_hash with
            | none =>
              rcases downloadPhase_shape env s (some o) (candidates mode env s) with
                hdl | ⟨e, d, v, hdl⟩
              · exact Or.inr (Or.inl ⟨s, rfl, h0, hvlt,
                  Or.inr (by simp [fetch_and_validate, hls, h0, hlt, heq, hor, hoh, hdl])⟩)
              · exact Or.inr (Or.inr ⟨e, d, v,
                  by simp [fetch_and_validate, hls, h0, hlt, heq, hor, hoh, hdl]⟩)
            | some ohash =>
              cases htc : candidates mode env s with
              | nil =>
                exact Or.inr (Or.inr ⟨FetchError.indexError, false, false,
                  by simp [fetch_and_validate, hls, h0, hlt, heq, hor, hoh, htc]⟩)
              | cons first rest =>
                by_cases hff : first.root = ohash ∧ allSameRoot (first :: rest) = true
                · exact Or.inr (Or.inl ⟨s, rfl, h0, hvlt,
                    Or.inl (by simp [fetch_and_validate, hls, h0, hlt, heq, hor, hoh, htc, hff])⟩)
                · cases htr : trimTrailing ohash (first :: rest) with
                  | none =>
                    exact Or.inr (Or.inr ⟨FetchError.indexError, false, false,
                      by simp [fetch_and_validate, hls, h0, hlt, heq, hor, hoh, htc, hff, htr]⟩)
                  | some trimmed =>
                    rcases downloadPhase_shape env s (some o) trimmed with hdl | ⟨e, d, v, hdl⟩
                    · exact Or.inr (Or.inl ⟨s, rfl, h0, hvlt,
                        Or.inr (by
                          simp [fetch_and_validate, hls, h0, hlt, heq, hor, hoh, htc, hff, htr, hdl])⟩)
                    · exact Or.inr (Or.inr ⟨e, d, v,
                        by
                          simp [fetch_and_validate, hls, h0, hlt, heq, hor, hoh, htc, hff, htr, hdl]⟩)

/-- If some element of the list has a root differing from the old hash,
the pop loop stops before emptying the list. -/
theorem trimLoop_some_of_mem (hsh : Nat) :
    ∀ m : List SingletonRecord, (∃ r, r ∈ m ∧ r.root ≠ hsh) →
      ∃ l', trimLoop hsh m = some l' ∧ l' ≠ [] := by
  intro m
  induction m with
  | nil => rintro ⟨r, hr, _⟩; cases hr
  | cons a t ih =>
    rintro ⟨r, hr, hne⟩
    by_cases ha : a.root = hsh
    · have hex : ∃ r, r ∈ t ∧ r.root ≠ hsh := by
        rcases List.mem_cons.mp hr with rfl | hmem
        · exact absurd ha hne
        · exact ⟨r, hmem, hne⟩
      rcases ih hex with ⟨l', hl', hne'⟩
      exact ⟨l', by simp [trimLoop, ha, hl'], hne'⟩
    · exact ⟨a :: t, by simp [trimLoop, ha], by simp⟩

/-- C9: the trim loop that pops trailing candidates equal to the old
local root hash never empties the candidate list: whenever the list is
non-empty and the fast-forward condition did not hold, the loop
terminates normally (no IndexError) with a non-empty list, so the later
first- and last-element accesses are in bounds. -/
theorem C9_trim_preserves_nonempty (hsh : Nat) (first : SingletonRecord)
    (rest : List SingletonRecord)
    (hnot : ¬ (first.root = hsh ∧ allSameRoot (first :: rest) = true)) :
    ∃ l', trimTrailing hsh (first :: rest) = some l' ∧ l' ≠ [] := by
  have hex : ∃ r, r ∈ (first :: rest).reverse ∧ r.root ≠ hsh := by
    by_cases hf : first.root = hsh
    · have hall : allSameRoot (first :: rest) ≠ true := fun hb => hnot ⟨hf, hb⟩
      have hx : ¬ (∀ x ∈ rest, (x.root == first.root) = true) := by
        intro hforall
        exact hall (by simpa [allSameRoot, List.all_eq_true] using hforall)
      push_neg at hx
      rcases hx with ⟨x, hxm, hxne⟩
      refine ⟨x, by simp [hxm], fun hxr => hxne ?_⟩
      simp [hxr, hf]
    · exact ⟨first, by simp, hf⟩
  rcases trimLoop_some_of_mem hsh ((first :: rest).reverse) hex with ⟨l', hl', hne⟩
  refine ⟨l'.reverse, by unfold trimTrailing; rw [hl']; rfl, fun hcon => hne ?_⟩
  simpa using congrArg List.reverse hcon

/-- C9 witness: a singleton candidate list whose root differs from the
old hash survives trimming. -/
theorem C9_witness :
    ∃ l', trimTrailing 1 [{ root := 2, generation := 1 }] = some l' ∧ l' ≠ [] :=
  C9_trim_preserves_nonempty 1 { root := 2, generation := 1 } [] (by decide)

/-- C1: whenever a fetch_and_validate invocation writes the validated
generation, the written value is the latest singleton record generation,
it strictly exceeds (hence never decreases below) the previously stored
checkpoint, and the invocation raised no exception; the write happened
either without the downloader (fast-forward) or after a validation
call. -/
theorem C1_monotonic_checkpoint (mode : DownloadMode) (env : Env) (g : Nat)
    (hset : (fetch_and_validate mode env).validatedGenSet = some g) :
    (∃ s, env.latestSingleton = some s ∧ g = s.generation ∧
      env.validatedGeneration < s.generation) ∧
    env.validatedGeneration ≤ g ∧
    (fetch_and_validate mode env).error = none ∧
    ((fetch_and_validate mode env).downloaderInvoked = false ∨
      (fetch_and_validate mode env).validateBatchCalled = true) := by
  rcases fetch_shape mode env with ⟨hn, _⟩ | ⟨s, hs, h0, hlt, hf | hf⟩ | ⟨e, d, v, hf⟩
  · rw [hn] at hset
    simp [noopOutcome] at hset
  · rw [hf] at hset ⊢
    simp only [Option.some.injEq] at hset
    exact ⟨⟨s, hs, hset.symm, hlt⟩, by omega, rfl, Or.inl rfl⟩
  · rw [hf] at hset ⊢
    simp only [Option.some.injEq] at hset
    exact ⟨⟨s, hs, hset.symm, hlt⟩, by omega, rfl, Or.inr rfl⟩
  · rw [hf] at hset
    simp at hset

/-- C1 witness: the fast-forward environment writes generation 3 from
checkpoint 1 with no exception and no downloader call. -/
theorem C1_witness :
    (∃ s, envFF.latestSingleton = some s ∧ 3 = s.generation ∧
      envFF.validatedGeneration < s.generation) ∧
    envFF.validatedGeneration ≤ 3 ∧
    (fetch_and_validate DownloadMode.LATEST envFF).error = none ∧
    ((fetch_and_validate DownloadMode.LATEST envFF).downloaderInvoked = false ∨
      (fetch_and_validate DownloadMode.LATEST envFF).validateBatchCalled = true) :=
  C1_monotonic_checkpoint DownloadMode.LATEST envFF 3 (by decide)

/-- C10 counterexample: with the ledger reporting generation 0 while
the stored checkpoint is 5 (latest generation strictly below the
checkpoint), fetch_and_validate terminates as a plain no-op instead of
failing with an assertion error. -/
theorem C10_counterexample :
    envC10.latestSingleton = some { root := 7, generation := 0 } ∧
    ({ root := 7, generation := 0 } : SingletonRecord).generation <
      envC10.validatedGeneration ∧
    fetch_and_validate DownloadMode.LATEST envC10 = noopOutcome :=
  ⟨rfl, by decide, rfl⟩

/-- C10 amended: when the latest singleton record has a nonzero
generation strictly below the stored checkpoint, fetch_and_validate
fails with an assertion error before invoking the downloader or
changing any state. -/
theorem C10_assert_on_ledger_behind (mode : DownloadMode) (env : Env)
    (s : SingletonRecord) (hs : env.latestSingleton = some s)
    (h0 : s.generation ≠ 0) (hlt : s.generation < env.validatedGeneration) :
    fetch_and_validate mode env =
      { error := some FetchError.assertionError, validatedGenSet := none,
        downloaderInvoked := false, validateBatchCalled := false } := by
  simp [fetch_and_validate, hs, h0, hlt]

/-- C10 witness: generation 3 against checkpoint 5 raises the
assertion error with no state change. -/
theorem C10_witness :
    fetch_and_validate DownloadMode.LATEST envA10 =
      { error := some FetchError.assertionError, validatedGenSet := none,
        downloaderInvoked := false, validateBatchCalled := false } :=
  C10_assert_on_ledger_behind DownloadMode.LATEST envA10 sA10 rfl (by decide) (by decide)

/-- C4: when the local root exists with a non-empty hash, the first
candidate carries that hash, and every candidate shares it,
fetch_and_validate writes the latest record generation and returns
without invoking the downloader and without calling validate_batch. -/
theorem C4_fast_forward (mode : DownloadMode) (env : Env) (s : SingletonRecord)
    (o : Root) (hsh : Nat) (first : SingletonRecord) (rest : List SingletonRecord)
    (hs : env.latestSingleton = some s) (h0 : s.generation ≠ 0)
    (hlt : env.validatedGeneration < s.generation)
    (ho : env.oldRoot = some o) (hoh : o.node_hash = some hsh)
    (hc : candidates mode env s = first :: rest)
    (hfirst : first.root = hsh) (hall : allSameRoot (first :: rest) = true) :
    fetch_and_validate mode env =
      { error := none, validatedGenSet := some s.generation,
        downloaderInvoked := false, validateBatchCalled := false } := by
  have h1 : ¬ s.generation < env.validatedGeneration := by omega
  have h2 : ¬ env.validatedGeneration = s.generation := by omega
  simp [fetch_and_validate, hs, h0, h1, h2, ho, hoh, hc, hfirst, hall]

/-- C4 witness: the fast-forward environment advances the checkpoint to
generation 3 with no download and no validation call. -/
theorem C4_witness :
    fetch_and_validate DownloadMode.LATEST envFF =
      { error := none, validatedGenSet := some sFF.generation,
        downloaderInvoked := false, validateBatchCalled := false } :=
  C4_fast_forward DownloadMode.LATEST envFF sFF
    { node_hash := some 5, generation := 1 } 5 sFF []
    rfl (by decide) (by decide) rfl rfl rfl rfl (by decide)

/-- C3: a failed download raises the download failure with no write of
the validated generation; a successful download whose resulting local
root hash differs from the first remaining candidate root raises the
chain mismatch with no write; and whenever fetch_and_validate ends in
either exception, the validated generation was not written. -/
theorem C3_mismatch_rejection (mode : DownloadMode) (env : Env) (s : SingletonRecord)
    (old : Option Root) (to_check : List SingletonRecord) :
    (env.downloadOk = false →
      downloadPhase env s old to_check =
        { error := some FetchError.downloadFailure, validatedGenSet := none,
          downloaderInvoked := true, validateBatchCalled := false }) ∧
    (∀ first rest, to_check = first :: rest → env.downloadOk = true →
      env.postRoot.node_hash ≠ some first.root →
      downloadPhase env s old to_check =
        { error := some FetchError.chainMismatch, validatedGenSet := none,
          downloaderInvoked := true, validateBatchCalled := false }) ∧
    ((fetch_and_validate mode env).error = some FetchError.chainMismatch ∨
        (fetch_and_validate mode env).error = some FetchError.downloadFailure →
      (fetch_and_validate mode env).validatedGenSet = none) := by
  refine ⟨fun hd => by simp [downloadPhase, hd], ?_, ?_⟩
  · intro first rest htc hd hne
    subst htc
    have hd' : ¬ env.downloadOk = false := by simp [hd]
    cases hph : env.postRoot.node_hash with
    | none => simp [downloadPhase, hd', hph]
    | some rh =>
      have hr : ¬ rh = first.root := by
        intro hcon
        exact hne (by rw [hph, hcon])
      simp [downloadPhase, hd', hph, hr]
  · intro herr
    rcases fetch_shape mode env with ⟨hn, _⟩ | ⟨s', _, _, _, hf | hf⟩ | ⟨e, d, v, hf⟩
    · rw [hn] at herr ⊢
      rfl
    · rw [hf] at herr
      rcases herr with herr | herr <;> simp at herr
    · rw [hf] at herr
      rcases herr with herr | herr <;> simp at herr
    · rw [hf]

/-- C3 witness: the download-failure environment and the mismatch
environment each raise with no checkpoint write. -/
theorem C3_witness :
    downloadPhase envDLF sDL none [sDL] =
      { error := some FetchError.downloadFailure, validatedGenSet := none,
        downloaderInvoked := true, validateBatchCalled := false } ∧
    downloadPhase envCM sDL none [sDL] =
      { error := some FetchError.chainMismatch, validatedGenSet := none,
        downloaderInvoked := true, validateBatchCalled := false } ∧
    (fetch_and_validate DownloadMode.LATEST envCM).validatedGenSet = none :=
  ⟨(C3_mismatch_rejection DownloadMode.LATEST envDLF sDL none [sDL]).1 rfl,
    (C3_mismatch_rejection DownloadMode.LATEST envCM sDL none [sDL]).2.1 sDL [] rfl rfl
      (by decide),
    (C3_mismatch_rejection DownloadMode.LATEST envCM sDL none [sDL]).2.2
      (Or.inl (by decide))⟩

/-- C5: each early-return condition (no singleton record, generation
zero, generation equal to the stored checkpoint) yields a pure no-op
with no downloader call and no write; consequently a second run after
any error-free run, with the checkpoint updated by the first run and no
new ledger commitments, is such a no-op. -/
theorem C5_noop_idempotence (mode : DownloadMode) (env : Env) :
    ((env.latestSingleton = none ∨
        ∃ s, env.latestSingleton = some s ∧
          (s.generation = 0 ∨ s.generation = env.validatedGeneration)) →
      fetch_and_validate mode env = noopOutcome) ∧
    ((fetch_and_validate mode env).error = none →
      fetch_and_validate mode
          { env with validatedGeneration :=
              ((fetch_and_validate mode env).validatedGenSet).getD env.validatedGeneration } =
        noopOutcome) := by
  refine ⟨fetch_noop_of_conditions mode env, ?_⟩
  intro herr
  rcases fetch_shape mode env with ⟨hn, hcond⟩ | ⟨s, hs, h0, hlt, hf | hf⟩ | ⟨e, d, v, hf⟩
  · rw [hn]
    exact fetch_noop_of_conditions mode env hcond
  · rw [hf]
    exact fetch_noop_of_conditions mode _ (Or.inr ⟨s, hs, Or.inr rfl⟩)
  · rw [hf]
    exact fetch_noop_of_conditions mode _ (Or.inr ⟨s, hs, Or.inr rfl⟩)
  · rw [hf] at herr
    simp at herr

/-- C5 witness: with no ledger record at all, the run is a no-op, and
so is the follow-up run with the (unchanged) checkpoint. -/
theorem C5_witness :
    fetch_and_validate DownloadMode.LATEST envNoRec = noopOutcome ∧
    fetch_and_validate DownloadMode.LATEST
        { envNoRec with validatedGeneration :=
            ((fetch_and_validate DownloadMode.LATEST envNoRec).validatedGenSet).getD envNoRec.validatedGeneration } =
      noopOutcome :=
  ⟨(C5_noop_idempotence DownloadMode.LATEST envNoRec).1 (Or.inl rfl),
    (C5_noop_idempotence DownloadMode.LATEST envNoRec).2 rfl⟩

/-- C2 counterexample: over the scenario C history (generations 1, 2, 3
with hashes A, B, C), validate_batch on the candidate list [B, C] with
min_generation 2 and max_generation 3 returns false, not true: after B
resolves to local generation 2 the window narrows to 2, and C (local
generation 3) no longer resolves inside it. -/
theorem C2_counterexample :
    validate_batch scLookup [recB, recC] 2 3 = false := by decide

/-- C2 amended: with the candidate list in the order fetch_and_validate
actually supplies (latest record first, so [C, B]), validate_batch with
min_generation 2 and max_generation 3 returns true, and with
min_generation 3 it returns false (B resolves to local generation 2,
below that minimum). -/
theorem C2_scenario_c_latest_first :
    validate_batch scLookup [recC, recB] 2 3 = true ∧
    validate_batch scLookup [recC, recB] 3 3 = false := by decide

/-- C6 counterexample: when data_store.create_tree returns no result,
create_store logs the failure as fatal and raises nothing, but the
initialized flag is still assigned True, contradicting the claim that
it is not set on local initialization failure. -/
theorem C6_counterexample :
    (create_store none).initialized = true ∧ (create_store none).loggedFatal = true := by
  decide

/-- C6 amended: create_store logs a fatal failure exactly when local
tree creation returns no result, never raises, and sets the initialized
flag to true regardless of the local result. -/
theorem C6_create_store_always_initializes :
    create_store none = { loggedFatal := true, initialized := true } ∧
    create_store (some ()) = { loggedFatal := false, initialized := true } := by
  decide

/-- C7: an insert change with a supplied reference hash or side issues
the explicit reference-relative insert followed by the auto-placement
insert; one without a hint issues only the auto-placement insert; and
after the changelist is applied batch_update reads the resulting tree
root and submits its hash to the wallet, returning the submitted
transaction record. -/
theorem C7_batch_update_semantics (k v : Nat) (ref : Option Nat) (sd : Option Side)
    (rest : List Change) (changelist : List Change) (root : Root)
    (transaction_record : Nat) :
    (hintSupplied ref sd = true →
      batchLoop (Change.insert k v ref sd :: rest) =
        StoreOp.insert k v ref sd :: StoreOp.autoinsert k v :: batchLoop rest) ∧
    (hintSupplied ref sd = false →
      batchLoop (Change.insert k v ref sd :: rest) =
        StoreOp.autoinsert k v :: batchLoop rest) ∧
    batch_update changelist root transaction_record =
      (batchLoop changelist ++
        [StoreOp.get_tree_root, StoreOp.get_tree_root,
          StoreOp.dl_update_root (root.node_hash.getD 0)],
        transaction_record) := by
  refine ⟨fun h => by simp [batchLoop, h], fun h => by simp [batchLoop, h], rfl⟩

/-- C7 witness: a hinted insert produces the double insert, an unhinted
insert only the auto insert, and an empty changelist still reads the
root and submits it. -/
theorem C7_witness :
    batchLoop [Change.insert 1 2 (some 3) none] =
      StoreOp.insert 1 2 (some 3) none :: StoreOp.autoinsert 1 2 :: batchLoop [] ∧
    batchLoop [Change.insert 1 2 none none] =
      StoreOp.autoinsert 1 2 :: batchLoop [] ∧
    batch_update [] { node_hash := some 4, generation := 1 } 7 =
      (batchLoop [] ++
        [StoreOp.get_tree_root, StoreOp.get_tree_root, StoreOp.dl_update_root 4], 7) :=
  ⟨(C7_batch_update_semantics 1 2 (some 3) none [] [] { node_hash := some 4, generation := 1 } 7).1
      (by decide),
    (C7_batch_update_semantics 1 2 none none [] [] { node_hash := some 4, generation := 1 } 7).2.1
      (by decide),
    (C7_batch_update_semantics 1 2 none none [] [] { node_hash := some 4, generation := 1 } 7).2.2⟩

/-- Removing every subscription for a tree id leaves no subscription
with that id behind. -/
theorem storeUnsubscribe_clears (subs : List Subscription) (t : Nat) :
    (storeUnsubscribe subs t).filter (fun s => s.tree_id == t) = [] := by
  induction subs with
  | nil => rfl
  | cons a l ih =>
    by_cases h : a.tree_id = t
    · simp only [storeUnsubscribe] at ih ⊢
      simp [h, ih]
    · simp only [storeUnsubscribe] at ih ⊢
      simp [List.filter_cons, h, ih]

/-- C8: subscribing a tree id that is already registered is a no-op
(registry unchanged, wallet not asked to track); subscribing preserves
the at-most-one-per-tree-id invariant; unsubscribing an absent tree id
is a no-op; after unsubscribe no subscription with that id remains; and
subscribe followed by unsubscribe on an empty registry returns an empty
registry. -/
theorem C8_subscription_registry (subs : List Subscription) (store_id : Nat)
    (mode : DownloadMode) (ip : String) (port : Nat) (t : Nat) :
    (store_id ∈ subs.map Subscription.tree_id →
      subscribe subs store_id mode ip port =
        { subscriptions := subs, trackCalled := false }) ∧
    ((subs.map Subscription.tree_id).Nodup →
      (((subscribe subs store_id mode ip port).subscriptions).map Subscription.tree_id).Nodup) ∧
    (t ∉ subs.map Subscription.tree_id →
      unsubscribe subs t = { subscriptions := subs, stopTrackingCalled := false }) ∧
    ((unsubscribe subs t).subscriptions.filter (fun s => s.tree_id == t) = []) ∧
    (unsubscribe ((subscribe [] store_id mode ip port).subscriptions) store_id).subscriptions
      = [] := by
  refine ⟨fun hmem => by simp [subscribe, hmem], ?_, fun habs => by simp [unsubscribe, habs],
    ?_, ?_⟩
  · intro hnodup
    by_cases hmem : store_id ∈ subs.map Subscription.tree_id
    · simpa [subscribe, hmem] using hnodup
    · simp [subscribe, hmem, storeSubscribe, List.nodup_append, hnodup]
  · by_cases hmem : t ∈ subs.map Subscription.tree_id
    · simp only [unsubscribe, hmem, if_pos]
      exact storeUnsubscribe_clears subs t
    · simp only [unsubscribe, hmem, if_neg, not_false_iff]
      rw [List.filter_eq_nil_iff]
      intro a ha
      simp only [beq_iff_eq]
      intro hcon
      exact hmem (List.mem_map.mpr ⟨a, ha, hcon⟩)
  · simp [subscribe, unsubscribe, storeSubscribe, storeUnsubscribe]

/-- C8 witness: with a registry holding one subscription for tree 1,
re-subscribing tree 1 is a no-op, unsubscribing absent tree 2 is a
no-op, unsubscribing tree 1 leaves nothing for tree 1, the
subscribe-then-unsubscribe round trip on an empty registry is empty,
and a fresh subscribe preserves uniqueness. -/
theorem C8_witness :
    subscribe subs1 1 DownloadMode.LATEST "ip" 1234 =
      { subscriptions := subs1, trackCalled := false } ∧
    unsubscribe subs1 2 = { subscriptions := subs1, stopTrackingCalled := false } ∧
    (unsubscribe subs1 1).subscriptions.filter (fun s => s.tree_id == 1) = [] ∧
    (unsubscribe ((subscribe [] 1 DownloadMode.LATEST "ip" 1234).subscriptions) 1).subscriptions
      = [] ∧
    (((subscribe [] 1 DownloadMode.LATEST "ip" 1234).subscriptions).map
      Subscription.tree_id).Nodup :=
  ⟨(C8_subscription_registry subs1 1 DownloadMode.LATEST "ip" 1234 1).1 (by decide),
    (C8_subscription_registry subs1 1 DownloadMode.LATEST "ip" 1234 2).2.2.1 (by decide),
    (C8_subscription_registry subs1 1 DownloadMode.LATEST "ip" 1234 1).2.2.2.1,
    (C8_subscription_registry subs1 1 DownloadMode.LATEST "ip" 1234 1).2.2.2.2,
    (C8_subscription_registry [] 1 DownloadMode.LATEST "ip" 1234 1).2.1 (by decide)⟩
